import Mathlib

/-
Shallow embedding of the Watch server (`server.js`, the socket.io + express
coordination hub).  The JS `Map`s `rooms` and `users` are modelled as
association lists over `String` keys.  Wall-clock reads (`Date.now()`,
`new Date().toISOString()`) are modelled by an explicit `now : Nat`
parameter; both kinds of timestamps are represented as `Nat`.  Fresh UUIDs
(chat-message ids) are passed in as parameters.  Every socket handler is a
pure function `ServerState → inputs → ServerState × List Emit`, where the
`Emit` list records, in order, the socket.io emissions the handler performs:
`Emit.toSocket`          models `socket.emit(...)` (only the caller),
`Emit.toRoomExceptSender` models `socket.to(roomCode).emit(...)` (every
member of the room except the sending socket), and
`Emit.toRoom`            models `io.to(roomCode).emit(...)` (every member
including the sender).
-/

namespace Watch

/-- One entry of `room.users`: built in the `join-room` handler. -/
structure User where
  id : String
  socketId : String
  nickname : String
  joinedAt : Nat
deriving DecidableEq, Repr

/-- A chat message as minted by the `chat-message` handler. -/
structure ChatMessage where
  id : String
  userId : String
  nickname : String
  message : String
  timestamp : Nat
deriving DecidableEq, Repr

/-- The video descriptor a client sends with `video-loaded`. -/
structure Video where
  id : String
  name : String
  size : Nat
deriving DecidableEq, Repr

/-- The `videoState` object.  The `video-state-update` handler stores the
client payload verbatim (JS spread `{...videoState, lastUpdatedAt}`), so
every protocol-relevant field is optional: a client may omit any of them,
and whatever it sends (including a `version` field, which the v2 client
attaches) is passed through untouched.  `currentTime` (a float in JS that
the server only ever copies, never computes with) is modelled as `Rat`. -/
structure VideoState where
  videoId : Option String := none
  currentTime : Option Rat := none
  isPlaying : Option Bool := none
  lastUpdatedBy : Option String := none
  lastUpdatedAt : Option Nat := none
  timestamp : Option Nat := none
  action : Option String := none
  version : Option Nat := none
deriving DecidableEq, Repr

/-- A room record, as created by `getOrCreateRoom`. -/
structure Room where
  code : String
  users : List User
  messages : List ChatMessage
  currentVideo : Option Video
  videoState : Option VideoState
  createdAt : Nat
deriving DecidableEq, Repr

/-- The per-socket back reference stored in the `users` map:
`users.set(socket.id, { userId, roomCode })`. -/
structure SocketRef where
  userId : String
  roomCode : String
deriving DecidableEq, Repr

/-- The whole in-memory server state: the `rooms` and `users` Maps. -/
structure ServerState where
  rooms : List (String × Room)
  users : List (String × SocketRef)
deriving DecidableEq, Repr

/-- Events the server emits to clients (the payloads of `emit`). -/
inductive Event where
  | roomState (users : List User) (messages : List ChatMessage)
      (currentVideo : Option Video) (videoState : Option VideoState)
  | userJoined (user : User) (userCount : Nat)
  | userLeft (userId : String) (userCount : Nat)
  | userCountUpdate (count : Nat)
  | chatMessage (m : ChatMessage)
  | videoLoaded (video : Video) (userId : String)
  | videoStateUpdate (videoState : VideoState)
deriving DecidableEq, Repr

/-- An emission together with its audience. -/
inductive Emit where
  | toSocket (socketId : String) (ev : Event)
  | toRoomExceptSender (senderSocketId : String) (roomCode : String) (ev : Event)
  | toRoom (roomCode : String) (ev : Event)
deriving DecidableEq, Repr

/-- `Map.get`, on the association-list model. -/
def mapLookup {α : Type} (m : List (String × α)) (k : String) : Option α :=
  match m with
  | [] => none
  | (k', v) :: rest => if k' = k then some v else mapLookup rest k

/-- `Map.set`: replaces in place if the key exists, else appends. -/
def mapSet {α : Type} (m : List (String × α)) (k : String) (v : α) :
    List (String × α) :=
  match m with
  | [] => [(k, v)]
  | (k', v') :: rest =>
    if k' = k then (k, v) :: rest else (k', v') :: mapSet rest k v

/-- `Map.delete`. -/
def mapDelete {α : Type} (m : List (String × α)) (k : String) :
    List (String × α) :=
  match m with
  | [] => []
  | (k', v') :: rest => if k' = k then rest else (k', v') :: mapDelete rest k

/-- JS `array.slice(-n)`: the last `n` elements. -/
def sliceLast {α : Type} (n : Nat) (l : List α) : List α :=
  l.drop (l.length - n)

/-- JS truthiness of an optional string (`undefined` and `""` are falsy). -/
def truthyStr : Option String → Bool
  | none => false
  | some s => !s.isEmpty

/-- `getOrCreateRoom(roomCode)`: creates a fresh empty room on first
lookup.  Called only from the `join-room` handler. -/
def getOrCreateRoom (st : ServerState) (roomCode : String) (now : Nat) :
    ServerState × Room :=
  match mapLookup st.rooms roomCode with
  | some r => (st, r)
  | none =>
    let r : Room :=
      { code := roomCode, users := [], messages := [], currentVideo := none,
        videoState := none, createdAt := now }
    ({ st with rooms := mapSet st.rooms roomCode r }, r)

/-- `socket.on('join-room')`: get-or-create the room, drop any prior member
with the same `userId`, append the new handle, record the socket's back
reference, send `room-state` (last 50 messages) to the joiner, `user-joined`
to the others, and `user-count-update` to the whole room. -/
def onJoinRoom (st : ServerState) (socketId roomCode userId nickname : String)
    (now : Nat) : ServerState × List Emit :=
  let stRoom := getOrCreateRoom st roomCode now
  let room := stRoom.2
  let user : User :=
    { id := userId, socketId := socketId,
      nickname := if nickname = "" then "Guest" else nickname,
      joinedAt := now }
  let newUsers := (room.users.filter (fun u => u.id ≠ userId)) ++ [user]
  let room' := { room with users := newUsers }
  let ref : SocketRef := { userId := userId, roomCode := roomCode }
  let st2 : ServerState :=
    { rooms := mapSet stRoom.1.rooms roomCode room',
      users := mapSet stRoom.1.users socketId ref }
  (st2,
   [ Emit.toSocket socketId
       (Event.roomState room'.users (sliceLast 50 room'.messages)
         room'.currentVideo room'.videoState),
     Emit.toRoomExceptSender socketId roomCode
       (Event.userJoined user newUsers.length),
     Emit.toRoom roomCode (Event.userCountUpdate newUsers.length) ])

/-- `socket.on('leave-room')`: if the room exists, remove the member,
delete the socket back reference, notify the others, and delete the room
when it became empty.  If the room does not exist, nothing happens. -/
def onLeaveRoom (st : ServerState) (socketId roomCode userId : String) :
    ServerState × List Emit :=
  match mapLookup st.rooms roomCode with
  | none => (st, [])
  | some room =>
    let newUsers := room.users.filter (fun u => u.id ≠ userId)
    let rooms1 := mapSet st.rooms roomCode { room with users := newUsers }
    let rooms2 := if newUsers.length = 0 then mapDelete rooms1 roomCode else rooms1
    ({ rooms := rooms2, users := mapDelete st.users socketId },
     [ Emit.toRoomExceptSender socketId roomCode
         (Event.userLeft userId newUsers.length),
       Emit.toRoom roomCode (Event.userCountUpdate newUsers.length) ])

/-- `socket.on('chat-message')`: if the room exists, mint a message with a
fresh id and the server clock, append it, trim the buffer to the last 100,
and broadcast to the whole room (sender included).  Otherwise nothing. -/
def onChatMessage (st : ServerState) (roomCode userId nickname message msgId : String)
    (now : Nat) : ServerState × List Emit :=
  match mapLookup st.rooms roomCode with
  | none => (st, [])
  | some room =>
    let messageObj : ChatMessage :=
      { id := msgId, userId := userId, nickname := nickname,
        message := message, timestamp := now }
    let msgs1 := room.messages ++ [messageObj]
    let msgs2 := if 100 < msgs1.length then sliceLast 100 msgs1 else msgs1
    let rooms1 := mapSet st.rooms roomCode { room with messages := msgs2 }
    ({ st with rooms := rooms1 },
     [ Emit.toRoom roomCode (Event.chatMessage messageObj) ])

/-- `socket.on('video-loaded')`: if the room exists, overwrite
`currentVideo`, reset `videoState` to paused at time 0 (no `version` field
is written), and broadcast `video-loaded { video, userId }` — without the
playback state and without any acknowledgement — to everyone except the
sender.  Otherwise nothing. -/
def onVideoLoaded (st : ServerState) (socketId roomCode userId : String)
    (video : Video) (now : Nat) : ServerState × List Emit :=
  match mapLookup st.rooms roomCode with
  | none => (st, [])
  | some room =>
    let vs : VideoState :=
      { videoId := some video.id, currentTime := some 0,
        isPlaying := some false, lastUpdatedBy := some userId,
        lastUpdatedAt := some now }
    let room' := { room with currentVideo := some video, videoState := some vs }
    ({ st with rooms := mapSet st.rooms roomCode room' },
     [ Emit.toRoomExceptSender socketId roomCode
         (Event.videoLoaded video userId) ])

/-- `socket.on('video-state-update')`: guards are (1) the room exists,
(2) `room.currentVideo` is non-null, (3) the payload exists and its
`lastUpdatedBy` is truthy.  Then `currentTimestamp :=
room.videoState?.timestamp || 0` and `newTimestamp := videoState.timestamp
|| Date.now()` (JS `||`, so a zero timestamp is replaced by the clock).
When `newTimestamp >= currentTimestamp` the payload is stored verbatim with
a fresh `lastUpdatedAt` and broadcast to everyone except the sender; no
field of the payload (not `videoId`, not `action`, not `version`) is
examined, and no acknowledgement is ever sent.  Otherwise the update is
dropped. -/
def onVideoStateUpdate (st : ServerState) (socketId roomCode : String)
    (videoState : Option VideoState) (now : Nat) : ServerState × List Emit :=
  match mapLookup st.rooms roomCode with
  | none => (st, [])
  | some room =>
    if room.currentVideo = none then (st, [])
    else
      match videoState with
      | none => (st, [])
      | some vs =>
        if !truthyStr vs.lastUpdatedBy then (st, [])
        else
          let currentTimestamp := (room.videoState.bind VideoState.timestamp).getD 0
          let newTimestamp :=
            match vs.timestamp with
            | none => now
            | some t => if t = 0 then now else t
          if currentTimestamp ≤ newTimestamp then
            let stored := { vs with lastUpdatedAt := some now }
            let rooms1 := mapSet st.rooms roomCode { room with videoState := some stored }
            ({ st with rooms := rooms1 },
             [ Emit.toRoomExceptSender socketId roomCode
                 (Event.videoStateUpdate stored) ])
          else (st, [])

/-- `socket.on('disconnect')`: if the socket has a back reference and the
referenced room still exists, same effect as `leave-room`. -/
def onDisconnect (st : ServerState) (socketId : String) :
    ServerState × List Emit :=
  match mapLookup st.users socketId with
  | none => (st, [])
  | some ref =>
    match mapLookup st.rooms ref.roomCode with
    | none => (st, [])
    | some room =>
      let newUsers := room.users.filter (fun u => u.id ≠ ref.userId)
      let rooms1 := mapSet st.rooms ref.roomCode { room with users := newUsers }
      let rooms2 := if newUsers.length = 0 then mapDelete rooms1 ref.roomCode else rooms1
      ({ rooms := rooms2, users := mapDelete st.users socketId },
       [ Emit.toRoomExceptSender socketId ref.roomCode
           (Event.userLeft ref.userId newUsers.length),
         Emit.toRoom ref.roomCode (Event.userCountUpdate newUsers.length) ])

/-
The streaming endpoint `GET /api/video/:filename`.  The stored file is a
byte list; the `Range: bytes=a-b` header arrives already parsed as the pair
`(start, endOpt)` (`parseInt` of the two dash-separated parts; an absent or
empty second part is `none`).  `fs.createReadStream(path, {start, end})` is
byte-inclusive on both bounds, which `sliceInclusive` models; its
constructor runs BEFORE `writeHead(206)` and throws `ERR_OUT_OF_RANGE`
synchronously whenever `start > end`, a throw Express surfaces as a 500
error response — modelled by the 500 branch below.  The bound `end`
defaults to `fileSize - 1` as a JS number, so it is kept as `Int` (for an
empty file it is `-1`).  No validation of `start` against the file size is
performed by the source.
-/

/-- The response head plus body of the streaming endpoint. -/
structure RangeResponse where
  status : Nat
  contentRange : Option (Nat × Nat × Nat)
  acceptRanges : Bool
  contentLength : Int
  body : List Nat
deriving DecidableEq, Repr

/-- Bytes at offsets `start .. endIdx` inclusive, the semantics of
`fs.createReadStream(filePath, { start, end })`. -/
def sliceInclusive (file : List Nat) (start endIdx : Nat) : List Nat :=
  (file.drop start).take (endIdx + 1 - start)

/-- The body of `app.get('/api/video/:filename')` after the 404 check, for
an existing file.  With a `Range` header, `endIdx` defaults to
`fileSize - 1`; when `start > endIdx` the `fs.createReadStream`
constructor (which the source calls before `writeHead(206)`) throws
`ERR_OUT_OF_RANGE` synchronously and Express answers with a 500 error
response; otherwise the handler answers `206` with
`Content-Range: bytes start-endIdx/fileSize` — `start` is never checked
against the file size.  Without a `Range` header it answers `200` with the
whole file. -/
def streamVideo (file : List Nat) (range : Option (Nat × Option Nat)) :
    RangeResponse :=
  let fileSize := file.length
  match range with
  | some (start, endOpt) =>
    let endIdx : Int :=
      match endOpt with
      | some e => (e : Int)
      | none => (fileSize : Int) - 1
    if (start : Int) > endIdx then
      { status := 500, contentRange := none, acceptRanges := false,
        contentLength := 0, body := [] }
    else
      { status := 206,
        contentRange := some (start, endIdx.toNat, fileSize),
        acceptRanges := true,
        contentLength := endIdx - (start : Int) + 1,
        body := sliceInclusive file start endIdx.toNat }
  | none =>
    { status := 200, contentRange := none, acceptRanges := true,
      contentLength := (fileSize : Int), body := file }

/-- The empty server state at process start. -/
def emptyState : ServerState := { rooms := [], users := [] }

/-
A concrete scenario used to evaluate the playback-control path: one user
joins room `RRRRRR`, loads video `X`, and then sends controls through the
`video-state-update` handler.
-/

/-- The video loaded in the scenario. -/
def vidX : Video := { id := "X", name := "movie.mp4", size := 1000 }

/-- State after `u1` (socket `s1`) joined room `RRRRRR`. -/
def stJoined : ServerState :=
  (onJoinRoom emptyState "s1" "RRRRRR" "u1" "alice" 10).1

/-- The full result of the `video-loaded` request for `vidX` at time 20. -/
def loadStep : ServerState × List Emit :=
  onVideoLoaded stJoined "s1" "RRRRRR" "u1" vidX 20

/-- State after the video was loaded. -/
def stLoaded : ServerState := loadStep.1

/-- A play control carrying `version` 5 (as the v2 client would attach). -/
def ctrlA : VideoState :=
  { videoId := some "X", currentTime := some 12, isPlaying := some true,
    lastUpdatedBy := some "u1", timestamp := some 30,
    action := some "play", version := some 5 }

/-- A later pause control carrying the smaller `version` 3. -/
def ctrlB : VideoState :=
  { videoId := some "X", currentTime := some 13, isPlaying := some false,
    lastUpdatedBy := some "u1", timestamp := some 40,
    action := some "pause", version := some 3 }

/-- Result of submitting `ctrlA` at server time 31. -/
def stepA : ServerState × List Emit :=
  onVideoStateUpdate stLoaded "s1" "RRRRRR" (some ctrlA) 31

/-- Result of then submitting `ctrlB` at server time 41. -/
def stepB : ServerState × List Emit :=
  onVideoStateUpdate stepA.1 "s1" "RRRRRR" (some ctrlB) 41

/-- The `version` field of the videoState a server state holds for a room. -/
def storedVersion (st : ServerState) (roomCode : String) : Option Nat :=
  (((mapLookup st.rooms roomCode).bind Room.videoState).bind VideoState.version)

/-- The `videoId` field of the videoState a server state holds for a room. -/
def storedVideoId (st : ServerState) (roomCode : String) : Option String :=
  (((mapLookup st.rooms roomCode).bind Room.videoState).bind VideoState.videoId)

/-- A control whose `videoId` (`"Y"`) differs from the loaded video (`"X"`). -/
def ctrlWrongVid : VideoState :=
  { videoId := some "Y", currentTime := some 7, isPlaying := some true,
    lastUpdatedBy := some "u1", timestamp := some 30, action := some "play" }

/-- Result of submitting the mismatched control at server time 31. -/
def stepWrongVid : ServerState × List Emit :=
  onVideoStateUpdate stLoaded "s1" "RRRRRR" (some ctrlWrongVid) 31

/-- A periodic time-drift report (`action = "timeupdate"`). -/
def ctrlTimeupdate : VideoState :=
  { videoId := some "X", currentTime := some 55, isPlaying := some true,
    lastUpdatedBy := some "u1", timestamp := some 30,
    action := some "timeupdate" }

/-- Result of submitting the timeupdate report at server time 31. -/
def stepTimeupdate : ServerState × List Emit :=
  onVideoStateUpdate stLoaded "s1" "RRRRRR" (some ctrlTimeupdate) 31

/-- A control sent from socket `s1` (user `u1`) whose payload claims
`lastUpdatedBy = "u2"`. -/
def ctrlForged : VideoState :=
  { videoId := some "X", currentTime := some 14, isPlaying := some true,
    lastUpdatedBy := some "u2", timestamp := some 33, action := some "play" }

/-- Result of submitting the forged-attribution control at server time 34. -/
def stepForged : ServerState × List Emit :=
  onVideoStateUpdate stLoaded "s1" "RRRRRR" (some ctrlForged) 34

/-- C1: evaluation of the code at the failing input.  The server keeps no
version counter: after `video-loaded` the stored `version` is `none`, not
the 0 the claim requires; and the handler stores and broadcasts client
payloads verbatim, so two accepted controls carrying client-chosen
versions 5 and then 3 are broadcast in that order — the version values a
member receives are 5 followed by 3, not a strictly increasing sequence,
and no accepted control ever bumps a server-side version by 1. -/
theorem C1_no_server_version :
    storedVersion stLoaded "RRRRRR" = none ∧
    stepA.2 = [ Emit.toRoomExceptSender "s1" "RRRRRR"
      (Event.videoStateUpdate { ctrlA with lastUpdatedAt := some 31 }) ] ∧
    stepB.2 = [ Emit.toRoomExceptSender "s1" "RRRRRR"
      (Event.videoStateUpdate { ctrlB with lastUpdatedAt := some 41 }) ] ∧
    ctrlA.version = some 5 ∧ ctrlB.version = some 3 ∧ (3 : Nat) < 5 := by
  decide

/-- C2: evaluation of the code at the failing input.  The room's loaded
video is `"X"`, yet a control whose `videoId` is `"Y"` is accepted: the
stored state's `videoId` becomes `"Y"`, the state is broadcast, and no
`{ok:false, reason:"video-mismatch"}` acknowledgement exists anywhere in
the handler (the emission list contains only the broadcast). -/
theorem C2_mismatched_videoId_accepted :
    storedVideoId stLoaded "RRRRRR" = some "X" ∧
    ctrlWrongVid.videoId = some "Y" ∧
    storedVideoId stepWrongVid.1 "RRRRRR" = some "Y" ∧
    stepWrongVid.2 = [ Emit.toRoomExceptSender "s1" "RRRRRR"
      (Event.videoStateUpdate { ctrlWrongVid with lastUpdatedAt := some 31 }) ] := by
  decide

/-- C3: evaluation of the code at the failing input.  The handler never
examines the `action` field: a periodic `timeupdate` report passes the same
guards as `play`/`pause`/`seek`, mutates the room's videoState (its
`currentTime` becomes 55), and is broadcast to the other members — the
claim requires it to be ignored with no state change and no broadcast. -/
theorem C3_timeupdate_accepted :
    stepTimeupdate.1 ≠ stLoaded ∧
    ((mapLookup stepTimeupdate.1.rooms "RRRRRR").bind Room.videoState) =
      some { ctrlTimeupdate with lastUpdatedAt := some 31 } ∧
    stepTimeupdate.2 = [ Emit.toRoomExceptSender "s1" "RRRRRR"
      (Event.videoStateUpdate { ctrlTimeupdate with lastUpdatedAt := some 31 }) ] := by
  decide

/-- C4: evaluation of the code at the failing input.  After an accepted
control the only emission is `socket.to(roomCode).emit(...)`, which reaches
every member EXCEPT the originator; no acknowledgement (and hence no
version) is ever sent back, and `lastUpdatedBy` is not set by the server
but copied from the client payload — here the sender is user `u1` yet the
stored and broadcast state credits `u2`. -/
theorem C4_no_originator_broadcast_no_ack :
    mapLookup stLoaded.users "s1" = some { userId := "u1", roomCode := "RRRRRR" } ∧
    stepForged.2 = [ Emit.toRoomExceptSender "s1" "RRRRRR"
      (Event.videoStateUpdate { ctrlForged with lastUpdatedAt := some 34 }) ] ∧
    ((mapLookup stepForged.1.rooms "RRRRRR").bind Room.videoState) =
      some { ctrlForged with lastUpdatedAt := some 34 } := by
  decide

/-- C5: evaluation of the code at the failing input.  `video-loaded` does
overwrite `currentVideo` and reset the state to paused at time 0 with
`lastUpdatedBy` the sender, but it writes NO `version` field (the claim
requires previous+1), broadcasts `video-loaded { video, userId }` WITHOUT
the new playback state, and sends no `{ok:true, version}` acknowledgement
(the emission list holds only the one broadcast, addressed to everyone
except the sender). -/
theorem C5_load_broadcast_without_state :
    ((mapLookup stLoaded.rooms "RRRRRR").map Room.currentVideo) = some (some vidX) ∧
    ((mapLookup stLoaded.rooms "RRRRRR").bind Room.videoState) = some
      { videoId := some "X", currentTime := some 0, isPlaying := some false,
        lastUpdatedBy := some "u1", lastUpdatedAt := some 20,
        timestamp := none, action := none, version := none } ∧
    loadStep.2 = [ Emit.toRoomExceptSender "s1" "RRRRRR"
      (Event.videoLoaded vidX "u1") ] := by
  decide

/-- C6: for every stored file and every parsed `Range: bytes=a-b` with
`a ≤ b < size` (where a missing `b` defaults to `size - 1`), the stream
endpoint answers 206 with `Content-Range: bytes a-b/size`.
`Content-Length` equal to `b - a + 1`, a body of exactly that many bytes,
and the i-th body byte is the stored byte at offset `a + i`. -/
theorem C6_range_request_correct (file : List Nat) (a b : Nat)
    (endOpt : Option Nat) (hdef : endOpt.getD (file.length - 1) = b)
    (hab : a ≤ b) (hb : b < file.length) :
    (streamVideo file (some (a, endOpt))).status = 206 ∧
    (streamVideo file (some (a, endOpt))).contentRange = some (a, b, file.length) ∧
    (streamVideo file (some (a, endOpt))).contentLength = (b : Int) - (a : Int) + 1 ∧
    (streamVideo file (some (a, endOpt))).body.length = b + 1 - a ∧
    ∀ i, i < b + 1 - a →
      (streamVideo file (some (a, endOpt))).body[i]? = file[a + i]? := by
  have hs : streamVideo file (some (a, endOpt)) =
      { status := 206, contentRange := some (a, b, file.length),
        acceptRanges := true,
        contentLength := (b : Int) - (a : Int) + 1,
        body := (file.drop a).take (b + 1 - a) } := by
    cases endOpt with
    | some e =>
      have he : e = b := by simpa using hdef
      subst he
      simp only [streamVideo, sliceInclusive]
      rw [if_neg (by omega)]
      simp
    | none =>
      have hlen : file.length - 1 = b := by simpa using hdef
      have h1 : ((file.length : Int) - 1).toNat = b := by omega
      have h2 : (file.length : Int) - 1 - (a : Int) + 1 =
          (b : Int) - (a : Int) + 1 := by omega
      simp only [streamVideo, sliceInclusive]
      rw [if_neg (by omega)]
      simp [h1, h2]
  rw [hs]
  refine ⟨rfl, rfl, rfl, ?_, ?_⟩
  · simp only [List.length_take, List.length_drop]
    omega
  · intro i hi
    rw [List.getElem?_take, if_pos hi, List.getElem?_drop]

/-- C6 witness: the general theorem applied to the concrete 5-byte file
`[100, 101, 102, 103, 104]` and the range `bytes=1-3`. -/
theorem C6_range_request_correct_witness :
    ((some 3 : Option Nat).getD (([100, 101, 102, 103, 104] : List Nat).length - 1) = 3) ∧
    (1 ≤ 3) ∧ (3 < ([100, 101, 102, 103, 104] : List Nat).length) ∧
    ((streamVideo [100, 101, 102, 103, 104] (some (1, some 3))).status = 206 ∧
     (streamVideo [100, 101, 102, 103, 104] (some (1, some 3))).contentRange =
       some (1, 3, ([100, 101, 102, 103, 104] : List Nat).length) ∧
     (streamVideo [100, 101, 102, 103, 104] (some (1, some 3))).contentLength =
       (3 : Int) - (1 : Int) + 1 ∧
     (streamVideo [100, 101, 102, 103, 104] (some (1, some 3))).body.length = 3 + 1 - 1 ∧
     ∀ i, i < 3 + 1 - 1 →
       (streamVideo [100, 101, 102, 103, 104] (some (1, some 3))).body[i]? =
         ([100, 101, 102, 103, 104] : List Nat)[1 + i]?) :=
  ⟨rfl, by decide, by decide,
   C6_range_request_correct [100, 101, 102, 103, 104] 1 3 (some 3) rfl
     (by decide) (by decide)⟩

/-- C7 counterexample: a GET of a 10-byte file with the invalid header
`Range: bytes=20-25` (start 20 ≥ size 10) is answered with status 206, not
416: the source never checks the parsed bounds against the file size. -/
theorem C7_counterexample :
    (([0, 1, 2, 3, 4, 5, 6, 7, 8, 9] : List Nat).length ≤ 20) ∧
    (streamVideo [0, 1, 2, 3, 4, 5, 6, 7, 8, 9] (some (20, some 25))).status = 206 ∧
    ¬ (streamVideo [0, 1, 2, 3, 4, 5, 6, 7, 8, 9] (some (20, some 25))).status = 416 := by
  decide

/-- C7 amended: the stream endpoint never responds 416 Range Not
Satisfiable.  A Range whose start exceeds its end (`start > end`, with
`end` defaulting to `size - 1`) makes the read-stream constructor throw
before any header is written, which Express surfaces as a 500 error; every
other Range on an existing file — in particular `start ≥ size` with
`start ≤ end` — is answered 206. -/
theorem C7_amended_no_416 (file : List Nat) (start : Nat)
    (endOpt : Option Nat) :
    (streamVideo file (some (start, endOpt))).status =
      (if (start : Int) > (match endOpt with
         | some e => (e : Int)
         | none => (file.length : Int) - 1) then 500 else 206) ∧
    (streamVideo file (some (start, endOpt))).status ≠ 416 := by
  constructor
  · simp only [streamVideo]
    split
    · rfl
    · rfl
  · simp only [streamVideo]
    split
    · simp
    · simp

/-- State after socket `s1` (user `u1`) joined room `AAAAAA` and then,
without leaving, joined room `BBBBBB`. -/
def twoJoins : ServerState :=
  (onJoinRoom (onJoinRoom emptyState "s1" "AAAAAA" "u1" "alice" 5).1
    "s1" "BBBBBB" "u1" "alice" 6).1

/-- C8 counterexample: after the connection that was a member of room
`AAAAAA` processes a `join-room` for room `BBBBBB`, its user `u1` is STILL
counted among `AAAAAA`'s members (and also among `BBBBBB`'s): `join-room`
never removes the joiner from a previously joined room, so membership is
not exclusive. -/
theorem C8_counterexample :
    ((mapLookup twoJoins.rooms "AAAAAA").map (fun r => r.users.map User.id)) =
      some ["u1"] ∧
    ((mapLookup twoJoins.rooms "BBBBBB").map (fun r => r.users.map User.id)) =
      some ["u1"] ∧
    mapLookup twoJoins.users "s1" =
      some { userId := "u1", roomCode := "BBBBBB" } := by
  decide

/-- C8 amended: the gateway back reference (`users` map) names at most one
room per connection — a second `join-room` overwrites it — but room member
lists are not exclusive: after a connection that is a member of room A
processes a `join-room` for a different room B, its user remains counted
among room A's members (until a `leave-room` or disconnect reaches A). -/
theorem C8_amended_membership_not_exclusive (s u nick A B : String)
    (n1 n2 : Nat) (hAB : A ≠ B) :
    ((mapLookup ((onJoinRoom (onJoinRoom emptyState s A u nick n1).1
        s B u nick n2).1).rooms A).map (fun r => r.users.map User.id)) =
      some [u] ∧
    mapLookup ((onJoinRoom (onJoinRoom emptyState s A u nick n1).1
        s B u nick n2).1).users s = some { userId := u, roomCode := B } := by
  simp [onJoinRoom, getOrCreateRoom, emptyState, mapLookup, mapSet, hAB]

/-- C8 amended, witness: the amended theorem at the concrete trace
`join(s1, u1, AAAAAA)` then `join(s1, u1, BBBBBB)`. -/
theorem C8_amended_membership_not_exclusive_witness :
    (("AAAAAA" : String) ≠ "BBBBBB") ∧
    (((mapLookup ((onJoinRoom (onJoinRoom emptyState "s1" "AAAAAA" "u1" "alice" 5).1
        "s1" "BBBBBB" "u1" "alice" 6).1).rooms "AAAAAA").map
          (fun r => r.users.map User.id)) = some ["u1"] ∧
     mapLookup ((onJoinRoom (onJoinRoom emptyState "s1" "AAAAAA" "u1" "alice" 5).1
        "s1" "BBBBBB" "u1" "alice" 6).1).users "s1" =
       some { userId := "u1", roomCode := "BBBBBB" }) :=
  ⟨by decide,
   C8_amended_membership_not_exclusive "s1" "u1" "alice" "AAAAAA" "BBBBBB" 5 6
     (by decide)⟩

/-- C9: an inbound `chat-message`, `video-loaded`, or `video-state-update`
naming a room code for which no room exists is a complete no-op: the server
state is returned unchanged — in particular no room is created — and
nothing is emitted, neither a broadcast nor an error to the sender.
(`getOrCreateRoom` is called only by the `join-room` handler; these three
handlers use a bare `rooms.get` lookup.) -/
theorem C9_missing_room_noop (st : ServerState) (roomCode : String)
    (h : mapLookup st.rooms roomCode = none)
    (socketId userId nickname message msgId : String) (video : Video)
    (videoState : Option VideoState) (now : Nat) :
    onChatMessage st roomCode userId nickname message msgId now = (st, []) ∧
    onVideoLoaded st socketId roomCode userId video now = (st, []) ∧
    onVideoStateUpdate st socketId roomCode videoState now = (st, []) := by
  refine ⟨?_, ?_, ?_⟩ <;>
    simp [onChatMessage, onVideoLoaded, onVideoStateUpdate, h]

/-- C9 witness: the theorem at the empty server state and room `ZZZZZZ`. -/
theorem C9_missing_room_noop_witness :
    mapLookup emptyState.rooms "ZZZZZZ" = none ∧
    (onChatMessage emptyState "ZZZZZZ" "u1" "alice" "hi" "m1" 7 =
        (emptyState, []) ∧
     onVideoLoaded emptyState "s1" "ZZZZZZ" "u1" vidX 7 = (emptyState, []) ∧
     onVideoStateUpdate emptyState "s1" "ZZZZZZ" (some ctrlA) 7 =
        (emptyState, [])) :=
  ⟨rfl,
   C9_missing_room_noop emptyState "ZZZZZZ" rfl "s1" "u1" "alice" "hi" "m1"
     vidX (some ctrlA) 7⟩

/-- A stored videoState whose client-supplied `timestamp` is 100. -/
def vsAt100 : VideoState :=
  { videoId := some "X", currentTime := some 3, isPlaying := some true,
    lastUpdatedBy := some "u1", lastUpdatedAt := some 90,
    timestamp := some 100 }

/-- A room holding video `X` whose videoState is `vsAt100`. -/
def roomFuture : Room :=
  { code := "RRRRRR",
    users := [{ id := "u1", socketId := "s1", nickname := "alice", joinedAt := 1 }],
    messages := [], currentVideo := some vidX, videoState := some vsAt100,
    createdAt := 0 }

/-- A server state holding `roomFuture` under code `RRRRRR`. -/
def stFuture : ServerState :=
  { rooms := [("RRRRRR", roomFuture)],
    users := [("s1", { userId := "u1", roomCode := "RRRRRR" })] }

/-- A control payload that carries no `timestamp` field. -/
def ctrlNoTs : VideoState :=
  { videoId := some "X", currentTime := some 5, isPlaying := some false,
    lastUpdatedBy := some "u2", action := some "pause" }

/-- C10 counterexample: at server time 50, an update carrying no
`timestamp` field, against a stored (client-supplied) timestamp of 100, is
DROPPED — the state is unchanged and nothing is broadcast — although the
claim says a timestampless update is treated as sent at the server's
current time "and is therefore accepted".  Acceptance additionally
requires the server clock to be at or past the stored timestamp, which a
client that sent a future timestamp can defeat. -/
theorem C10_counterexample :
    (roomFuture.videoState.bind VideoState.timestamp) = some 100 ∧
    ctrlNoTs.timestamp = none ∧
    onVideoStateUpdate stFuture "s2" "RRRRRR" (some ctrlNoTs) 50 =
      (stFuture, []) := by
  decide

/-- C10 amended: with the handler's guards passed (the room exists, a video
is loaded, the payload's `lastUpdatedBy` is truthy), write `ts0` for the
stored `room.videoState?.timestamp || 0`.  Then: (1) an update whose
`timestamp` is nonzero and strictly below `ts0` is dropped with no state
change and no broadcast (a zero timestamp is falsy in JS and is replaced by
the server clock instead); (2) an update carrying no `timestamp` is treated
as sent at the server's current time `now` and is dropped when `now < ts0`;
(3) in the same no-timestamp case it is accepted when `ts0 ≤ now`: the
payload is stored verbatim with a fresh `lastUpdatedAt` and broadcast to
every member except the sender. -/
theorem C10_amended_timestamp_gate (st : ServerState) (room : Room)
    (socketId roomCode : String) (vs : VideoState) (now : Nat)
    (hroom : mapLookup st.rooms roomCode = some room)
    (hvid : ¬ room.currentVideo = none)
    (hby : truthyStr vs.lastUpdatedBy = true) :
    (∀ t, vs.timestamp = some t → 0 < t →
      t < (room.videoState.bind VideoState.timestamp).getD 0 →
      onVideoStateUpdate st socketId roomCode (some vs) now = (st, [])) ∧
    (vs.timestamp = none →
      now < (room.videoState.bind VideoState.timestamp).getD 0 →
      onVideoStateUpdate st socketId roomCode (some vs) now = (st, [])) ∧
    (vs.timestamp = none →
      (room.videoState.bind VideoState.timestamp).getD 0 ≤ now →
      onVideoStateUpdate st socketId roomCode (some vs) now =
        ({ st with rooms := mapSet st.rooms roomCode ({ room with videoState := some ({ vs with lastUpdatedAt := some now }) }) },
         [ Emit.toRoomExceptSender socketId roomCode
             (Event.videoStateUpdate { vs with lastUpdatedAt := some now }) ])) := by
  have hred : ∀ res, onVideoStateUpdate st socketId roomCode (some vs) now = res ↔
      (if (room.videoState.bind VideoState.timestamp).getD 0 ≤
          (match vs.timestamp with
           | none => now
           | some t => if t = 0 then now else t) then
        ({ st with rooms := mapSet st.rooms roomCode ({ room with videoState := some ({ vs with lastUpdatedAt := some now }) }) },
         [ Emit.toRoomExceptSender socketId roomCode
             (Event.videoStateUpdate { vs with lastUpdatedAt := some now }) ])
       else (st, [])) = res := by
    intro res
    unfold onVideoStateUpdate
    rw [hroom]
    simp [hvid, hby]
  refine ⟨?_, ?_, ?_⟩
  · intro t ht h0 hlt
    rw [hred, ht]
    have hne : ¬ t = 0 := Nat.pos_iff_ne_zero.mp h0
    simp only [hne, if_false]
    rw [if_neg (by omega)]
  · intro ht hlt
    rw [hred]
    simp only [ht]
    rw [if_neg (by omega)]
  · intro ht hle
    rw [hred]
    simp only [ht]
    rw [if_pos (by omega)]

/-- C10 amended, witness: the amended theorem at the concrete server
`stFuture` (stored timestamp 100), the timestampless payload `ctrlNoTs`,
and server time 150 ≥ 100. -/
theorem C10_amended_timestamp_gate_witness :
    mapLookup stFuture.rooms "RRRRRR" = some roomFuture ∧
    (¬ roomFuture.currentVideo = none) ∧
    truthyStr ctrlNoTs.lastUpdatedBy = true ∧
    ((∀ t, ctrlNoTs.timestamp = some t → 0 < t →
        t < (roomFuture.videoState.bind VideoState.timestamp).getD 0 →
        onVideoStateUpdate stFuture "s2" "RRRRRR" (some ctrlNoTs) 150 =
          (stFuture, [])) ∧
     (ctrlNoTs.timestamp = none →
        150 < (roomFuture.videoState.bind VideoState.timestamp).getD 0 →
        onVideoStateUpdate stFuture "s2" "RRRRRR" (some ctrlNoTs) 150 =
          (stFuture, [])) ∧
     (ctrlNoTs.timestamp = none →
        (roomFuture.videoState.bind VideoState.timestamp).getD 0 ≤ 150 →
        onVideoStateUpdate stFuture "s2" "RRRRRR" (some ctrlNoTs) 150 =
          ({ stFuture with rooms := mapSet stFuture.rooms "RRRRRR" ({ roomFuture with videoState := some ({ ctrlNoTs with lastUpdatedAt := some 150 }) }) },
           [ Emit.toRoomExceptSender "s2" "RRRRRR"
               (Event.videoStateUpdate { ctrlNoTs with lastUpdatedAt := some 150 }) ]))) :=
  ⟨rfl, by decide, by decide,
   C10_amended_timestamp_gate stFuture roomFuture "s2" "RRRRRR" ctrlNoTs 150
     rfl (by decide) (by decide)⟩

end Watch


